import Mathlib

/-!
# Folklorerun — verification of the progression core

Shallow embedding of the Folklorerun game's progression core:

* the phase & progression state machine of `src/hooks/useGameEngine.js`
  (`selectCreature`, `makeChoice`, `completeLevelTransition`, `restartGame`,
  `goHome`, …), modelled as pure functions on an explicit session-state
  record.  React's `setState` calls become record updates; the `setTimeout`
  delays in `makeChoice` only postpone the very same synchronous updates, so
  they are collapsed (the intermediate 2-second consequence display is not a
  distinct engine state).
* the mechanic rule helpers of `src/components/Inventory.jsx`
  (`handleSubmitAnswer`, `handleTokenClick`, `validateCombination`).
* the data-loading pipeline of `src/utils/dataLoader.js`
  (`validateCreatureData`, `applySafeDefaultsToCreatureData`,
  `loadCreatureData`, `loadUIConfig`, `loadAllGameData`) over a model of
  parsed JSON/JS values, together with the embedded fallback datasets of
  `src/fallbackData.js`.

JavaScript conventions carried over: absent object fields are `Option`s,
`a || b` and `a ?? b` become `jsOrV` / `jsNullish`, truthiness is `truthy`,
and a JS `TypeError` thrown while mapping over a non-array is an `Option`
`none` (caught by the surrounding `try` in `loadCreatureData`).
-/

namespace Folklore

/-! ## A model of parsed JSON / JavaScript values -/

/-- A parsed JSON value as the JS code sees it.  Numbers are rationals
(JSON decimal literals are exact rationals). -/
inductive JValue where
  | null
  | bool (b : Bool)
  | num (q : Rat)
  | str (s : String)
  | arr (elems : List JValue)
  | obj (fields : List (String × JValue))

/-- JS truthiness of a defined value (`NaN` never arises in the modelled
data paths). -/
def truthy : JValue → Bool
  | .null => false
  | .bool b => b
  | .num q => decide (q ≠ 0)
  | .str s => decide (s ≠ "")
  | .arr _ => true
  | .obj _ => true

/-- `typeof v === \x27object\x27` for a defined value: objects, arrays and
`null` all have typeof `object`. -/
def isObjectType : JValue → Bool
  | .obj _ => true
  | .arr _ => true
  | .null => true
  | _ => false

/-- Property access `v[key]`: `none` models JS `undefined` (absent field or
non-object receiver).  Well-formed JSON objects bind each key once, so
first-match lookup is adequate. -/
def jget : JValue → String → Option JValue
  | .obj fields, key => fields.lookup key
  | _, _ => none

/-- Truthiness of a possibly-`undefined` value (`undefined` is falsy). -/
def truthyOpt : Option JValue → Bool
  | some v => truthy v
  | none => false

/-- `typeof v === \x27object\x27` on a possibly-`undefined` value
(`typeof undefined` is `undefined`, not `object`). -/
def isObjectTypeOpt : Option JValue → Bool
  | some v => isObjectType v
  | none => false

/-- JS `a || d` on a possibly-`undefined` `a`. -/
def jsOrV (a : Option JValue) (d : JValue) : JValue :=
  match a with
  | some v => if truthy v then v else d
  | none => d

/-- JS nullish coalescing `a ?? d` on a possibly-`undefined` `a`. -/
def jsNullish (a : Option JValue) (d : JValue) : JValue :=
  match a with
  | some .null => d
  | some v => v
  | none => d

/-! ## Game-engine data model (`useGameEngine.js`)

The engine consumes creature records whose shape downstream code relies on
(`creature.levels[i].choices[j].isCorrect` and so on); they are modelled as
typed records. -/

/-- A choice of a level: display text, correctness flag, consequence text. -/
structure GChoice where
  text : String
  isCorrect : Bool
  consequence : String
deriving DecidableEq, Repr

/-- One level of a creature: scene text and its choices. -/
structure GLevel where
  sceneText : String
  choices : List GChoice
deriving DecidableEq, Repr

/-- A creature record as the engine reads it. -/
structure GCreature where
  id : String
  name : String
  coreMechanic : String
  levels : List GLevel
deriving DecidableEq, Repr

/-- The creature dataset handed to `useGameEngine`. -/
structure GCreatureData where
  creatures : List GCreature
deriving DecidableEq, Repr

/-- A JS number that may be `NaN` (arithmetic on an absent field yields
`NaN`, and `Math.max(0, NaN)` is `NaN`). -/
inductive JsIntVal where
  | num (n : Int)
  | nan
deriving DecidableEq, Repr

/-- The engine's `mechanicState` object.  `selectCreature` replaces it with
a single-field record, so each field is optional: `none` is an absent key. -/
structure MechanicState where
  hintsRevealed : Option Int
  calmnessLevel : Option JsIntVal
  tokensCollected : Option (List String)
deriving DecidableEq, Repr

/-- The `animationState` record. -/
structure AnimationState where
  entranceComplete : Bool
  closeUpComplete : Bool
  storyComplete : Bool
deriving DecidableEq, Repr

/-- The whole session state owned by `useGameEngine`. -/
structure EngineState where
  gameState : String
  selectedCreature : Option GCreature
  currentLevel : Nat
  outcome : Option String
  consequenceText : String
  transitionFrom : Nat
  correctAnswers : Nat
  animationState : AnimationState
  storyBubbleIndex : Nat
  mechanicState : MechanicState
deriving DecidableEq, Repr

/-- The initial `useState` values of the hook. -/
def initialEngineState : EngineState :=
  { gameState := "intro"
    selectedCreature := none
    currentLevel := 0
    outcome := none
    consequenceText := ""
    transitionFrom := 0
    correctAnswers := 0
    animationState := ⟨false, false, false⟩
    storyBubbleIndex := 0
    mechanicState := ⟨some 0, some (.num 100), some []⟩ }

/-- `startGame`: intro animation done, go to creature selection. -/
def startGame (s : EngineState) : EngineState :=
  { s with gameState := "select" }

/-- The mechanic reset performed by `selectCreature`: a fresh single-field
record keyed by the creature's mechanic; any other mechanic tag leaves the
previous `mechanicState` in place (no `setMechanicState` call runs). -/
def selectMechanicReset (coreMechanic : String) (old : MechanicState) :
    MechanicState :=
  if coreMechanic = "riddle" then ⟨some 0, none, none⟩
  else if coreMechanic = "calmness" then ⟨none, some (.num 100), none⟩
  else if coreMechanic = "deduction" then ⟨none, none, some []⟩
  else old

/-- `selectCreature(creatureId)`: looks the id up in the dataset; missing
dataset or unknown id is a logged no-op.  On success resets the run state
and enters the `characterReveal` phase. -/
def selectCreature (creatureData : Option GCreatureData) (creatureId : String)
    (s : EngineState) : EngineState :=
  match creatureData with
  | none => s
  | some data =>
    match data.creatures.find? (fun c => c.id = creatureId) with
    | none => s
    | some creature =>
      { s with
        selectedCreature := some creature
        currentLevel := 0
        outcome := none
        consequenceText := ""
        storyBubbleIndex := 0
        correctAnswers := 0
        animationState := ⟨false, false, false⟩
        mechanicState := selectMechanicReset creature.coreMechanic s.mechanicState
        gameState := "characterReveal" }

/-- `completeEntranceAnimation`. -/
def completeEntranceAnimation (s : EngineState) : EngineState :=
  { s with animationState := { s.animationState with entranceComplete := true } }

/-- `completeCloseUpAnimation`: also enters the `story` phase. -/
def completeCloseUpAnimation (s : EngineState) : EngineState :=
  { s with
    animationState := { s.animationState with closeUpComplete := true }
    gameState := "story" }

/-- `advanceStoryBubble`. -/
def advanceStoryBubble (s : EngineState) : EngineState :=
  match s.selectedCreature with
  | none => s
  | some creature =>
    let totalBubbles : Nat := if creature.id = "aswang" then 5 else 4
    if s.storyBubbleIndex < totalBubbles - 1 then
      { s with storyBubbleIndex := s.storyBubbleIndex + 1 }
    else
      { s with
        animationState := { s.animationState with storyComplete := true }
        gameState := "level" }

/-- The level-indexed calmness decrement of `makeChoice`:
level 0 → 25, level 1 → 30, otherwise 35. -/
def calmnessDecrease (currentLevel : Nat) : Int :=
  if currentLevel = 0 then 25 else if currentLevel = 1 then 30 else 35

/-- `Math.max(0, c - d)` on a possibly-absent calmness value: arithmetic on
`undefined` or `NaN` stays `NaN`. -/
def calmSub (c : Option JsIntVal) (d : Int) : JsIntVal :=
  match c with
  | some (.num n) => .num (max 0 (n - d))
  | some .nan => .nan
  | none => .nan

/-- `makeChoice(choiceIndex)`: guarded to the `level` phase with a defined
creature, level and choice; otherwise a no-op.  Sets the consequence text,
applies the calmness decrement on an incorrect choice of a calmness
creature, counts a correct choice, and either ends the game (level 2,
victory iff the final correct count is at least 2) or moves to the
`levelTransition` phase, clearing the consequence text. -/
def makeChoice (choiceIndex : Nat) (s : EngineState) : EngineState :=
  match s.selectedCreature with
  | none => s
  | some creature =>
    if s.gameState ≠ "level" then s
    else
      match creature.levels[s.currentLevel]? with
      | none => s
      | some levelData =>
        match levelData.choices[choiceIndex]? with
        | none => s
        | some choice =>
          let s1 : EngineState := { s with consequenceText := choice.consequence }
          let s2 : EngineState :=
            if creature.coreMechanic = "calmness" ∧ choice.isCorrect = false then
              let newCalm := calmSub s1.mechanicState.calmnessLevel
                (calmnessDecrease s.currentLevel)
              { s1 with mechanicState :=
                { s1.mechanicState with calmnessLevel := some newCalm } }
            else s1
          if choice.isCorrect then
            let newCorrectCount := s2.correctAnswers + 1
            if s2.currentLevel = 2 then
              { s2 with
                correctAnswers := newCorrectCount
                outcome := some (if 2 ≤ newCorrectCount then "victory" else "defeat")
                gameState := "end" }
            else
              { s2 with
                correctAnswers := newCorrectCount
                transitionFrom := s2.currentLevel
                gameState := "levelTransition"
                consequenceText := "" }
          else
            if s2.currentLevel = 2 then
              { s2 with
                outcome := some (if 2 ≤ s2.correctAnswers then "victory" else "defeat")
                gameState := "end" }
            else
              { s2 with
                transitionFrom := s2.currentLevel
                gameState := "levelTransition"
                consequenceText := "" }

/-- `restartGame`: keep the creature, enter `characterReveal`, reset the run
state, and set the combined three-field default mechanic record. -/
def restartGame (s : EngineState) : EngineState :=
  { s with
    gameState := "characterReveal"
    currentLevel := 0
    outcome := none
    correctAnswers := 0
    consequenceText := ""
    storyBubbleIndex := 0
    animationState := ⟨false, false, false⟩
    mechanicState := ⟨some 0, some (.num 100), some []⟩ }

/-- `goHome`: clear the creature, enter `select`, and perform the same reset
as `restartGame` (including the combined default mechanic record). -/
def goHome (s : EngineState) : EngineState :=
  { s with
    selectedCreature := none
    gameState := "select"
    currentLevel := 0
    outcome := none
    correctAnswers := 0
    consequenceText := ""
    storyBubbleIndex := 0
    animationState := ⟨false, false, false⟩
    mechanicState := ⟨some 0, some (.num 100), some []⟩ }

/-- `completeLevelTransition`: unconditionally bump the level index and
enter the `level` phase. -/
def completeLevelTransition (s : EngineState) : EngineState :=
  { s with currentLevel := s.currentLevel + 1, gameState := "level" }

/-- A complete run of three submitted choices, one per level, with the level
transition completed between consecutive choices. -/
def runThreeChoices (i0 i1 i2 : Nat) (s : EngineState) : EngineState :=
  makeChoice i2 (completeLevelTransition
    (makeChoice i1 (completeLevelTransition (makeChoice i0 s))))

/-! ## Mechanic rule helpers (`Inventory.jsx`) -/

/-- `handleTokenClick` of the deduction system: unconditional toggle —
filter the token out if collected, append it otherwise. -/
def handleTokenClick (tokensCollected : List String) (tokenId : String) :
    List String :=
  if tokensCollected.contains tokenId then
    tokensCollected.filter (fun id => id ≠ tokenId)
  else
    tokensCollected ++ [tokenId]

/-- The fixed table of valid clue pairs of `validateCombination`. -/
def validCombinations : List (List String) :=
  [["reversed-reflection", "no-shadow"],
   ["salt-reaction", "garlic-aversion"],
   ["extended-tongue", "leathery-wings"]]

/-- `validateCombination`: some valid pair is entirely collected. -/
def validateCombination (tokensCollected : List String) : Bool :=
  validCombinations.any (fun combo =>
    combo.all (fun token => tokensCollected.contains token))

/-- JS `String.prototype.toLowerCase()`, modelled character-wise. -/
def jsToLowerCase (s : String) : String :=
  String.mk (s.data.map Char.toLower)

/-- JS `String.prototype.trim()`: strip leading and trailing whitespace. -/
def jsTrim (s : String) : String :=
  String.mk
    (((s.data.dropWhile Char.isWhitespace).reverse.dropWhile
        Char.isWhitespace).reverse)

/-- JS `x || 0` on a possibly-absent number. -/
def jsOrInt (x : Option Int) (d : Int) : Int :=
  match x with
  | some v => if v = 0 then d else v
  | none => d

/-- `handleSubmitAnswer` of the riddle interface, as a function of the
answer key, the raw input, and the component/mechanic state it reads
(`showHint`, `mechanicState.hintsRevealed`).  Returns the feedback text and
the updated `(showHint, hintsRevealed)`.  The input is trimmed and
lower-cased; the key is only lower-cased.  The hint reveal and the
`hintsRevealed` increment run only while no hint is shown yet. -/
def handleSubmitAnswer (answerKey riddleAnswer : String) (showHint : Bool)
    (hintsRevealed : Option Int) : String × Bool × Option Int :=
  let normalizedAnswer := jsToLowerCase (jsTrim riddleAnswer)
  let normalizedKey := jsToLowerCase answerKey
  if normalizedAnswer = normalizedKey then
    ("Correct! The witch is pleased.", showHint, hintsRevealed)
  else
    if showHint = false then
      ("Incorrect. The witch frowns.", true, some (jsOrInt hintsRevealed 0 + 1))
    else
      ("Incorrect. The witch frowns.", showHint, hintsRevealed)


/-! ## Embedded fallback datasets (`fallbackData.js`) -/

def fallbackCreatureData : JValue :=
  .obj [
    ("creatures", .arr [
      .obj [
        ("id", .str "baba-yaga"),
        ("name", .str "Baba Yaga"),
        ("enrichedIntros", .arr [
          .str "In a ring of birch, a hut breathes smoke and whispers. Chicken legs creak beneath warped wood. The witch waits, her mortar idle, her pestle gleaming. She offers riddles, not mercy.",
          .str "The forest parts. A hut stands on chicken legs, scratching at the earth. Baba Yaga peers from the window, her grin crooked and knowing. \u0027Come closer, traveler. Let\u0027s see if you\u0027re clever.\u0027",
          .str "Bone-white birch trees circle the clearing. The hut spins slowly, its door facing you. Inside, the witch stirs her cauldron, humming riddles. Will you answer, or will you flee?"]),
        ("coreMechanic", .str "riddle"),
        ("levels", .arr [
          .obj [
            ("levelIndex", .num 0),
            ("sceneText", .str "The witch\u0027s eyes gleam like amber coals."),
            ("enrichedScene", .str "Amber light spills from the window slats. Runes carved in bone dangle from the eaves, spinning slow. Baba Yaga leans forward, her grin sharp as winter. \u0027Answer me this, traveler.\u0027"),
            ("choices", .arr [
              .obj [
                ("text", .str "Speak the answer with cleverness"),
                ("isCorrect", .bool true),
                ("consequence", .str "She nods, impressed. \u0027Clever tongue. Pass, then.\u0027")],
              .obj [
                ("text", .str "Demand she let you pass"),
                ("isCorrect", .bool false),
                ("consequence", .str "The hut turns away. The forest swallows you whole.")]]),
            ("riddleData", .obj [
              ("riddle", .str "What walks on four legs at dawn, two at noon, and three at dusk?"),
              ("hint", .str "Think of life\u0027s stages, from cradle to grave."),
              ("answerKey", .str "human")])],
          .obj [
            ("levelIndex", .num 1),
            ("sceneText", .str "The witch circles you, her pestle tapping the ground."),
            ("enrichedScene", .str "Smoke curls from her pipe, thick and sweet. The hut\u0027s walls creak, listening. She taps her pestle once, twice. \u0027Another riddle, little mouse. Answer well.\u0027"),
            ("choices", .arr [
              .obj [
                ("text", .str "Answer with wisdom"),
                ("isCorrect", .bool true),
                ("consequence", .str "Her cackle echoes. \u0027Wise indeed. Proceed.\u0027")],
              .obj [
                ("text", .str "Refuse to answer"),
                ("isCorrect", .bool false),
                ("consequence", .str "She waves her hand. You become a frog, forever croaking.")]]),
            ("riddleData", .obj [
              ("riddle", .str "I have cities but no houses, forests but no trees, water but no fish. What am I?"),
              ("hint", .str "You hold me to find your way."),
              ("answerKey", .str "map")])],
          .obj [
            ("levelIndex", .num 2),
            ("sceneText", .str "The witch offers one final test."),
            ("enrichedScene", .str "The hut settles, its legs folding beneath. Baba Yaga\u0027s eyes soften, just a fraction. \u0027One last riddle, traveler. Answer true, and I grant you passage beyond the veil.\u0027"),
            ("choices", .arr [
              .obj [
                ("text", .str "Solve the final riddle"),
                ("isCorrect", .bool true),
                ("consequence", .str "She smiles, a rare gift. \u0027Go, blessed one.\u0027")],
              .obj [
                ("text", .str "Guess wildly"),
                ("isCorrect", .bool false),
                ("consequence", .str "The hut\u0027s door slams shut. You are lost to the woods.")]]),
            ("riddleData", .obj [
              ("riddle", .str "The more you take, the more you leave behind. What am I?"),
              ("hint", .str "Every journey makes them."),
              ("answerKey", .str "footsteps")])]]),
        ("victoryTexts", .arr [
          .str "The witch grants you passage. Her blessing burns warm in your chest, a gift of old magic.",
          .str "Baba Yaga cackles with delight. \u0027Clever one! Go forth with my favor.\u0027 The forest opens before you, welcoming.",
          .str "She nods, satisfied. \u0027You\u0027ve earned your way, riddler.\u0027 Her magic settles on your shoulders like a cloak of stars."]),
        ("defeatTexts", .arr [
          .str "The forest swallows your path. Baba Yaga\u0027s laughter echoes through the birch trees, fading into mist.",
          .str "The hut turns its back. You stumble through endless woods, lost forever. The witch\u0027s cackle follows you into darkness.",
          .str "She waves her pestle. The world tilts. You are something small now, scurrying through the underbrush, forgotten."])],
      .obj [
        ("id", .str "banshee"),
        ("name", .str "Banshee"),
        ("enrichedIntros", .arr [
          .str "A keening cry splits the mist. She appears, pale as moonlight, her hair flowing like water. The Banshee mourns, and her sorrow drowns the living. Speak softly, or be lost to her wail.",
          .str "The mist thickens. A voice rises, elegiac and ancient. She drifts toward you, translucent and grieving. The Banshee remembers all who are forgotten. Will you listen to her lament?",
          .str "Cold wind carries her song. The Banshee materializes, eyes hollow with centuries of loss. Her sorrow is a tide that pulls the living under. Tread carefully, speak gently."]),
        ("coreMechanic", .str "calmness"),
        ("levels", .arr [
          .obj [
            ("levelIndex", .num 0),
            ("sceneText", .str "The Banshee\u0027s eyes are hollow, filled with ancient grief."),
            ("enrichedScene", .str "Pale blue mist coils around her form. Her voice rises and falls like waves against stone. She reaches toward you, fingers trembling. \u0027Do you hear them? The voices of the lost?\u0027"),
            ("choices", .arr [
              .obj [
                ("text", .str "Speak gently of remembrance"),
                ("isCorrect", .bool true),
                ("consequence", .str "Her wail softens. A tear falls, luminous and cold.")],
              .obj [
                ("text", .str "Tell her to be silent"),
                ("isCorrect", .bool false),
                ("consequence", .str "Her scream shatters your mind. You fall, never to rise.")]])],
          .obj [
            ("levelIndex", .num 1),
            ("sceneText", .str "The Banshee drifts closer, her sorrow palpable."),
            ("enrichedScene", .str "Echo-waves ripple from her form, each one carrying fragments of memory. She sings of loss, of names forgotten. The air grows cold. \u0027Will you remember me?\u0027 she whispers."),
            ("choices", .arr [
              .obj [
                ("text", .str "Promise to remember her name"),
                ("isCorrect", .bool true),
                ("consequence", .str "She smiles, faint as starlight. \u0027Thank you, kind soul.\u0027")],
              .obj [
                ("text", .str "Turn away from her"),
                ("isCorrect", .bool false),
                ("consequence", .str "Her wail pierces your heart. You join the forgotten.")]])],
          .obj [
            ("levelIndex", .num 2),
            ("sceneText", .str "The Banshee\u0027s form begins to fade."),
            ("enrichedScene", .str "The mist thins. Her voice grows distant, elegiac and soft. She looks at you with eyes like deep water. \u0027One last question, traveler. Will you carry my song?\u0027"),
            ("choices", .arr [
              .obj [
                ("text", .str "Accept her song with reverence"),
                ("isCorrect", .bool true),
                ("consequence", .str "She fades, peaceful at last. Her song lives in you.")],
              .obj [
                ("text", .str "Refuse her burden"),
                ("isCorrect", .bool false),
                ("consequence", .str "She screams, and the world goes dark. You are lost.")]])]]),
        ("victoryTexts", .arr [
          .str "The Banshee fades into mist, her sorrow eased. You carry her song, a haunting melody of remembrance.",
          .str "She smiles, a ghost of warmth. \u0027You have given me peace.\u0027 Her form dissolves, leaving only echoes of gratitude.",
          .str "The wail softens to a lullaby. She fades, finally at rest. Her memory lives in you, gentle and eternal."]),
        ("defeatTexts", .arr [
          .str "Her wail consumes you. You become another voice in her eternal chorus, lost to the mist forever.",
          .str "The scream pierces your soul. You fall, joining the forgotten. The Banshee\u0027s sorrow claims another, endlessly mourning.",
          .str "Her cry shatters you. The mist closes in. You are lost now, a name she will sing in her endless lament."])],
      .obj [
        ("id", .str "aswang"),
        ("name", .str "Aswang"),
        ("enrichedIntros", .arr [
          .str "In the village, lanterns flicker and die. Something moves in the shadows, wearing a familiar face. The Aswang hunts, patient and hungry. Watch closely. Trust nothing.",
          .str "Night falls on the village. Dogs bark warnings. A neighbor waves from the darkness, but their shadow falls wrong. The Aswang is here. Stay sharp, stay alive.",
          .str "The village sleeps uneasily. Lantern flames gutter and die. Something prowls between the houses, wearing stolen skin. The Aswang is hunting. Will you survive until dawn?"]),
        ("coreMechanic", .str "deduction"),
        ("levels", .arr [
          .obj [
            ("levelIndex", .num 0),
            ("sceneText", .str "A neighbor approaches, smiling too wide."),
            ("enrichedScene", .str "Red-tinted fog creeps through the village streets. Lantern light flickers, casting long shadows. The neighbor\u0027s eyes catch the light strangely. \u0027Come closer,\u0027 they say. \u0027I have something to show you.\u0027"),
            ("choices", .arr [
              .obj [
                ("text", .str "Check for the telltale signs"),
                ("isCorrect", .bool true),
                ("consequence", .str "You spot the reversed reflection. It\u0027s not human.")],
              .obj [
                ("text", .str "Trust the familiar face"),
                ("isCorrect", .bool false),
                ("consequence", .str "Too late, you see the truth. The Aswang feeds.")]])],
          .obj [
            ("levelIndex", .num 1),
            ("sceneText", .str "The creature circles, testing your awareness."),
            ("enrichedScene", .str "Shadows twist and writhe. The Aswang wears many faces now, shifting between forms. Dogs howl in the distance. You must choose wisely, or become prey."),
            ("choices", .arr [
              .obj [
                ("text", .str "Use salt and garlic to reveal it"),
                ("isCorrect", .bool true),
                ("consequence", .str "It recoils, hissing. You\u0027ve found the truth.")],
              .obj [
                ("text", .str "Follow it into the dark"),
                ("isCorrect", .bool false),
                ("consequence", .str "The darkness swallows you. You are never seen again.")]])],
          .obj [
            ("levelIndex", .num 2),
            ("sceneText", .str "The Aswang reveals its true form."),
            ("enrichedScene", .str "The creature sheds its human skin. Leathery wings unfold. Its tongue extends, impossibly long. This is your final chance to survive the night. Choose with care."),
            ("choices", .arr [
              .obj [
                ("text", .str "Strike with blessed weapons"),
                ("isCorrect", .bool true),
                ("consequence", .str "Your blade finds its mark. The creature flees, wounded.")],
              .obj [
                ("text", .str "Try to reason with it"),
                ("isCorrect", .bool false),
                ("consequence", .str "It laughs, a terrible sound. You become its meal.")]])]]),
        ("victoryTexts", .arr [
          .str "The Aswang flees into the night, wounded and wary. The village is safe, for now. You are a hunter.",
          .str "Your blade strikes true. The creature shrieks and vanishes into darkness. Dawn breaks. The village is saved, and you stand victorious.",
          .str "It recoils, hissing in pain. The Aswang retreats, defeated. The roosters crow. You\u0027ve survived the night, a guardian of the village."]),
        ("defeatTexts", .arr [
          .str "The Aswang\u0027s hunger is satisfied. The village mourns another loss, never knowing the truth of your fate.",
          .str "Too slow. The creature\u0027s tongue wraps around you. Darkness. The village wakes to find you gone, another mystery unsolved.",
          .str "You trusted the wrong face. The Aswang feeds. By morning, you\u0027re just another disappearance, whispered about in fearful tones."])]])]

def fallbackUIConfig : JValue :=
  .obj [
    ("creatures", .obj [
      ("baba-yaga", .obj [
        ("primaryColor", .str "#FFB84D"),
        ("secondaryColor", .str "#FF8C42"),
        ("fogColor", .str "rgba(255, 184, 77, 0.3)"),
        ("particleType", .str "rune-glow"),
        ("particleColor", .str "#FFD700"),
        ("animationSpeed", .num (1.2 : Rat)),
        ("glowIntensity", .num (0.8 : Rat))]),
      ("banshee", .obj [
        ("primaryColor", .str "#B8D4E8"),
        ("secondaryColor", .str "#7BA8C7"),
        ("fogColor", .str "rgba(184, 212, 232, 0.35)"),
        ("particleType", .str "echo-wave"),
        ("particleColor", .str "#E0F2FF"),
        ("animationSpeed", .num (0.9 : Rat)),
        ("glowIntensity", .num (0.6 : Rat))]),
      ("aswang", .obj [
        ("primaryColor", .str "#D32F2F"),
        ("secondaryColor", .str "#8B0000"),
        ("fogColor", .str "rgba(211, 47, 47, 0.4)"),
        ("particleType", .str "flicker"),
        ("particleColor", .str "#FF6B6B"),
        ("animationSpeed", .num (1.5 : Rat)),
        ("glowIntensity", .num (0.9 : Rat))])]),
    ("gameStates", .obj [
      ("calm", .obj [
        ("fogDensity", .num (0.3 : Rat)),
        ("particleCount", .num 20),
        ("animationIntensity", .num (0.5 : Rat)),
        ("screenTilt", .bool false),
        ("vignette", .bool false),
        ("distortion", .bool false)]),
      ("tense", .obj [
        ("fogDensity", .num (0.55 : Rat)),
        ("particleCount", .num 40),
        ("animationIntensity", .num (0.8 : Rat)),
        ("screenTilt", .bool true),
        ("vignetteIntensity", .num (0.3 : Rat)),
        ("vignette", .bool true),
        ("distortion", .bool false)]),
      ("critical", .obj [
        ("fogDensity", .num (0.85 : Rat)),
        ("particleCount", .num 60),
        ("animationIntensity", .num (1.0 : Rat)),
        ("screenTilt", .bool true),
        ("vignetteIntensity", .num (0.6 : Rat)),
        ("vignette", .bool true),
        ("distortion", .bool true),
        ("distortionAmount", .num (0.02 : Rat))])]),
    ("soundCues", .obj [
      ("choice-select", .obj [
        ("descriptor", .str "soft-neon-chime"),
        ("visualEffect", .str "ripple"),
        ("duration", .num 300)]),
      ("correct-choice", .obj [
        ("descriptor", .str "warm-glow-hum"),
        ("visualEffect", .str "pulse"),
        ("duration", .num 500)]),
      ("incorrect-choice", .obj [
        ("descriptor", .str "hollow-echo"),
        ("visualEffect", .str "shake"),
        ("duration", .num 400)]),
      ("level-complete", .obj [
        ("descriptor", .str "ascending-shimmer"),
        ("visualEffect", .str "ripple"),
        ("duration", .num 600)]),
      ("game-over", .obj [
        ("descriptor", .str "descending-drone"),
        ("visualEffect", .str "fade"),
        ("duration", .num 800)]),
      ("victory", .obj [
        ("descriptor", .str "triumphant-chime"),
        ("visualEffect", .str "burst"),
        ("duration", .num 1000)])]),
    ("transitions", .obj [
      ("stateChange", .str "350ms ease-in-out"),
      ("sceneTransition", .str "420ms cubic-bezier(0.4, 0, 0.2, 1)"),
      ("choiceFeedback", .str "200ms ease-out"),
      ("fogShift", .str "500ms ease-in-out"),
      ("particleSpawn", .str "300ms ease-in")]),
    ("accessibility", .obj [
      ("reducedMotion", .obj [
        ("disableParallax", .bool true),
        ("disableParticles", .bool true),
        ("simplifyAnimations", .bool true),
        ("staticFog", .bool true)]),
      ("contrastRatios", .obj [
        ("minimum", .num (4.5 : Rat)),
        ("enhanced", .num (7.0 : Rat))]),
      ("focusRingWidth", .str "3px"),
      ("focusRingColor", .str "#4A90E2")]),
    ("performance", .obj [
      ("lowPowerMode", .obj [
        ("particleCount", .num 10),
        ("animationFrameRate", .num 30),
        ("simplifyEffects", .bool true)]),
      ("defaultFrameRate", .num 60),
      ("particleLifetime", .num 5000)])]


/-! ## Data loading & validation pipeline (`dataLoader.js`) -/

/-- `validateCreatureData`: the parsed body must be a truthy value of
typeof `object` whose `creatures` field is an array in which every entry
has a truthy `id` and `name` and a non-empty `levels` array. -/
def validateCreatureData (data : JValue) : Bool :=
  if truthy data = false then false
  else if isObjectType data = false then false
  else
    match jget data "creatures" with
    | some (.arr creatures) =>
      creatures.all (fun creature =>
        truthyOpt (jget creature "id") &&
        truthyOpt (jget creature "name") &&
        (match jget creature "levels" with
         | some (.arr levels) => decide (0 < levels.length)
         | _ => false))
    | _ => false

/-- `validateUIConfig`: truthy object with truthy object-typed `creatures`
and `gameStates` fields. -/
def validateUIConfig (config : JValue) : Bool :=
  if truthy config = false then false
  else if isObjectType config = false then false
  else
    truthyOpt (jget config "creatures") &&
    truthyOpt (jget config "gameStates") &&
    isObjectTypeOpt (jget config "creatures") &&
    isObjectTypeOpt (jget config "gameStates")

/-- JS `Array.prototype.map` with a body that can throw: `none` is a thrown
`TypeError`, propagated to the whole map. -/
def jsArrayMap (f : JValue → Option JValue) : List JValue → Option (List JValue)
  | [] => some []
  | x :: xs =>
    match f x, jsArrayMap f xs with
    | some y, some ys => some (y :: ys)
    | _, _ => none

/-- `(v || []).map f` where a truthy non-array `v` throws (`none`). -/
def jsArrayOrEmptyMap (v : Option JValue) (f : JValue → Option JValue) :
    Option (List JValue) :=
  match v with
  | none => some []
  | some w =>
    if truthy w = false then some []
    else
      match w with
      | .arr elems => jsArrayMap f elems
      | _ => none

/-- The per-choice defaulting of `applySafeDefaultsToCreatureData`. -/
def applyChoiceDefaults (choice : JValue) : JValue :=
  .obj [
    ("text", jsOrV (jget choice "text") (.str "Continue")),
    ("isCorrect", jsNullish (jget choice "isCorrect") (.bool false)),
    ("consequence", jsOrV (jget choice "consequence") (.str ""))]

/-- The per-level defaulting of `applySafeDefaultsToCreatureData`; as in the
source, `riddleData` is kept (with defaulted subfields) only when truthy,
and is `undefined` (an absent field) otherwise. -/
def applyLevelDefaults (level : JValue) : Option JValue :=
  match jsArrayOrEmptyMap (jget level "choices")
      (fun c => some (applyChoiceDefaults c)) with
  | none => none
  | some choices =>
    let base := [
      ("levelIndex", jsNullish (jget level "levelIndex") (.num 0)),
      ("sceneText", jsOrV (jget level "sceneText") (.str "")),
      ("enrichedScene", jsOrV (jget level "enrichedScene")
        (jsOrV (jget level "sceneText") (.str ""))),
      ("choices", JValue.arr choices)]
    if truthyOpt (jget level "riddleData") then
      let rd := (jget level "riddleData").getD .null
      some (.obj (base ++ [
        ("riddleData", .obj [
          ("riddle", jsOrV (jget rd "riddle") (.str "")),
          ("hint", jsOrV (jget rd "hint") (.str "")),
          ("answerKey", jsOrV (jget rd "answerKey") (.str ""))])]))
    else
      some (.obj base)

/-- The per-creature defaulting of `applySafeDefaultsToCreatureData`. -/
def applyCreatureDefaults (creature : JValue) : Option JValue :=
  match jsArrayOrEmptyMap (jget creature "levels") applyLevelDefaults with
  | none => none
  | some levels =>
    some (.obj [
      ("id", jsOrV (jget creature "id") (.str "unknown")),
      ("name", jsOrV (jget creature "name") (.str "Unknown Creature")),
      ("enrichedIntro", jsOrV (jget creature "enrichedIntro") (.str "")),
      ("coreMechanic", jsOrV (jget creature "coreMechanic") (.str "none")),
      ("levels", JValue.arr levels),
      ("victoryText", jsOrV (jget creature "victoryText")
        (.str "You have succeeded.")),
      ("defeatText", jsOrV (jget creature "defeatText")
        (.str "You have failed."))])

/-- `applySafeDefaultsToCreatureData`: falsy data or a falsy `creatures`
field yields the fallback dataset; otherwise every creature is defaulted.
`none` models a thrown `TypeError` (`.map` on a truthy non-array), caught
by the `try` of `loadCreatureData`. -/
def applySafeDefaultsToCreatureData (data : JValue) : Option JValue :=
  if truthy data = false then some fallbackCreatureData
  else if truthyOpt (jget data "creatures") = false then
    some fallbackCreatureData
  else
    match jget data "creatures" with
    | some (.arr creatures) =>
      match jsArrayMap applyCreatureDefaults creatures with
      | none => none
      | some cs => some (.obj [("creatures", JValue.arr cs)])
    | _ => none

/-- `applySafeDefaultsToUIConfig`. -/
def applySafeDefaultsToUIConfig (config : JValue) : JValue :=
  if truthy config = false then fallbackUIConfig
  else
    .obj [
      ("creatures", jsOrV (jget config "creatures")
        ((jget fallbackUIConfig "creatures").getD .null)),
      ("gameStates", jsOrV (jget config "gameStates")
        ((jget fallbackUIConfig "gameStates").getD .null)),
      ("soundCues", jsOrV (jget config "soundCues")
        (jsOrV (jget fallbackUIConfig "soundCues") (.obj []))),
      ("transitions", jsOrV (jget config "transitions")
        (jsOrV (jget fallbackUIConfig "transitions") (.obj []))),
      ("accessibility", jsOrV (jget config "accessibility")
        (jsOrV (jget fallbackUIConfig "accessibility") (.obj []))),
      ("performance", jsOrV (jget config "performance")
        (jsOrV (jget fallbackUIConfig "performance") (.obj [])))]

/-- The outcome of one `fetch` + `response.json()` round trip:
a transport error (the `fetch` promise rejects), a non-ok HTTP status,
an unparseable body, or a successfully parsed JSON value. -/
inductive FetchOutcome where
  | transportError
  | httpError
  | parseError
  | body (data : JValue)

/-- `loadCreatureData` as a function of the fetch outcome.  Every failure
path — including an exception thrown inside the `try` while defaulting —
returns the embedded fallback dataset. -/
def loadCreatureData : FetchOutcome → JValue
  | .transportError => fallbackCreatureData
  | .httpError => fallbackCreatureData
  | .parseError => fallbackCreatureData
  | .body data =>
    if validateCreatureData data then
      match applySafeDefaultsToCreatureData data with
      | some result => result
      | none => fallbackCreatureData
    else fallbackCreatureData

/-- `loadUIConfig` as a function of the fetch outcome. -/
def loadUIConfig : FetchOutcome → JValue
  | .transportError => fallbackUIConfig
  | .httpError => fallbackUIConfig
  | .parseError => fallbackUIConfig
  | .body config =>
    if validateUIConfig config then applySafeDefaultsToUIConfig config
    else fallbackUIConfig

/-- `loadAllGameData`: both loads run independently (`Promise.all`); the
result pairs the two datasets. -/
def loadAllGameData (o1 o2 : FetchOutcome) : JValue × JValue :=
  (loadCreatureData o1, loadUIConfig o2)

/-! ## Claim theorems -/

/-- C10: `completeLevelTransition` checks no phase precondition: in any
state whatsoever it sets the phase to `level` and increments the level
index by exactly 1, leaving every other field (creature, correct count,
outcome, consequence text, mechanic state, …) unchanged; iterating it
raises the level index without bound, in particular above 2. -/
theorem c10_completeLevelTransition_frame :
    ∀ s : EngineState,
      completeLevelTransition s =
        { s with currentLevel := s.currentLevel + 1, gameState := "level" } ∧
      ∀ n : Nat,
        (completeLevelTransition^[n] s).currentLevel = s.currentLevel + n := by
  intro s
  refine ⟨rfl, ?_⟩
  intro n
  induction n generalizing s with
  | zero => rfl
  | succ k ih =>
    rw [Function.iterate_succ_apply, ih]
    simp [completeLevelTransition]
    omega

/-- C7: every invalid operation is a no-op returning the state unchanged:
`makeChoice` outside phase `level`, with no selected creature, with a level
index beyond the creature\u0027s levels, or with an out-of-range choice index;
and `selectCreature` with a missing dataset or an id not present in it. -/
theorem c7_invalid_operations_noop :
    ∀ (i : Nat) (s : EngineState) (creatureData : Option GCreatureData)
      (creatureId : String),
      (s.gameState ≠ "level" → makeChoice i s = s) ∧
      (s.selectedCreature = none → makeChoice i s = s) ∧
      (∀ creature, s.selectedCreature = some creature →
        creature.levels[s.currentLevel]? = none → makeChoice i s = s) ∧
      (∀ creature levelData, s.selectedCreature = some creature →
        creature.levels[s.currentLevel]? = some levelData →
        levelData.choices[i]? = none → makeChoice i s = s) ∧
      (creatureData = none → selectCreature creatureData creatureId s = s) ∧
      (∀ data, creatureData = some data →
        data.creatures.find? (fun c => c.id = creatureId) = none →
        selectCreature creatureData creatureId s = s) := by
  intro i s creatureData creatureId
  refine ⟨?_, ?_, ?_, ?_, ?_, ?_⟩
  · intro hg
    unfold makeChoice
    cases hsel : s.selectedCreature with
    | none => rfl
    | some creature => simp [hg]
  · intro hsel
    unfold makeChoice
    rw [hsel]
  · intro creature hsel hlev
    unfold makeChoice
    rw [hsel]
    by_cases hg : s.gameState = "level"
    · simp [hg, hlev]
    · simp [hg]
  · intro creature levelData hsel hlev hch
    unfold makeChoice
    rw [hsel]
    by_cases hg : s.gameState = "level"
    · simp [hg, hlev, hch]
    · simp [hg]
  · intro hdata
    unfold selectCreature
    rw [hdata]
  · intro data hdata hfind
    simp [selectCreature, hdata, hfind]

/-- Witness for C7: in the initial state (phase `intro`), `makeChoice 0` is
a no-op, and `selectCreature` on an empty dataset with an unknown id is a
no-op. -/
theorem c7_invalid_operations_noop_witness :
    makeChoice 0 initialEngineState = initialEngineState ∧
    selectCreature (some ⟨[]⟩) "nobody" initialEngineState =
      initialEngineState := by
  constructor
  · exact (c7_invalid_operations_noop 0 initialEngineState none "x").1
      (by decide)
  · exact (c7_invalid_operations_noop 0 initialEngineState (some ⟨[]⟩)
      "nobody").2.2.2.2.2 ⟨[]⟩ rfl rfl

/-- C4: on a duplicate-free token collection, `handleTokenClick` adds the
token if absent and removes it if present, and toggling the same token
twice restores the original collection up to set equality. -/
theorem c4_toggle_token (tokens : List String) (t : String)
    (_hnd : tokens.Nodup) :
    (t ∉ tokens →
      ∀ x, x ∈ handleTokenClick tokens t ↔ (x ∈ tokens ∨ x = t)) ∧
    (t ∈ tokens →
      ∀ x, x ∈ handleTokenClick tokens t ↔ (x ∈ tokens ∧ x ≠ t)) ∧
    (∀ x, x ∈ handleTokenClick (handleTokenClick tokens t) t ↔ x ∈ tokens) := by
  refine ⟨?_, ?_, ?_⟩
  · intro ht x
    simp [handleTokenClick, ht]
  · intro ht x
    simp [handleTokenClick, ht, List.mem_filter]
  · intro x
    by_cases ht : t ∈ tokens
    · have h1 : handleTokenClick tokens t = tokens.filter (fun id => id ≠ t) := by
        simp [handleTokenClick, ht]
      rw [h1]
      have ht2 : t ∉ tokens.filter (fun id => id ≠ t) := by simp
      have h2 : handleTokenClick (tokens.filter (fun id => id ≠ t)) t =
          tokens.filter (fun id => id ≠ t) ++ [t] := by
        simp [handleTokenClick]
      rw [h2]
      constructor
      · intro hx
        rcases List.mem_append.1 hx with hx | hx
        · exact (List.mem_filter.1 hx).1
        · simp at hx
          subst hx
          exact ht
      · intro hx
        by_cases hxt : x = t
        · subst hxt
          exact List.mem_append.2 (Or.inr (by simp))
        · exact List.mem_append.2
            (Or.inl (List.mem_filter.2 ⟨hx, by simpa using hxt⟩))
    · have h1 : handleTokenClick tokens t = tokens ++ [t] := by
        simp [handleTokenClick, ht]
      rw [h1]
      have ht2 : t ∈ tokens ++ [t] := by simp
      have h2 : handleTokenClick (tokens ++ [t]) t =
          (tokens ++ [t]).filter (fun id => id ≠ t) := by
        simp [handleTokenClick]
      rw [h2]
      constructor
      · intro hx
        have hm := List.mem_filter.1 hx
        rcases List.mem_append.1 hm.1 with h | h
        · exact h
        · simp at h
          subst h
          simp at hm
      · intro hx
        refine List.mem_filter.2 ⟨List.mem_append.2 (Or.inl hx), ?_⟩
        have hxt : x ≠ t := by
          rintro rfl
          exact ht hx
        simpa using hxt

/-- Witness for C4: toggling `salt-reaction` twice on the duplicate-free
collection `["no-shadow"]` leaves `no-shadow` collected. -/
theorem c4_toggle_token_witness :
    (["no-shadow"] : List String).Nodup ∧
    "no-shadow" ∈
      handleTokenClick (handleTokenClick ["no-shadow"] "salt-reaction")
        "salt-reaction" := by
  refine ⟨by decide, ?_⟩
  exact ((c4_toggle_token ["no-shadow"] "salt-reaction"
    (by decide)).2.2 "no-shadow").mpr (by decide)

/-- C5: `validateCombination` is true exactly when the collected set
contains one of the three fixed pairs; it is recomputed from the current
collection, so after removing a collected token it holds exactly when a
pair survives among the remaining tokens — removing a token of the only
satisfied pair reverts it to false. -/
theorem c5_is_revealed (tokens : List String) (t : String) :
    (validateCombination tokens = true ↔
      (("reversed-reflection" ∈ tokens ∧ "no-shadow" ∈ tokens) ∨
       ("salt-reaction" ∈ tokens ∧ "garlic-aversion" ∈ tokens) ∨
       ("extended-tongue" ∈ tokens ∧ "leathery-wings" ∈ tokens))) ∧
    (t ∈ tokens →
      (validateCombination (handleTokenClick tokens t) = true ↔
        (("reversed-reflection" ∈ tokens ∧ "reversed-reflection" ≠ t ∧
          "no-shadow" ∈ tokens ∧ "no-shadow" ≠ t) ∨
         ("salt-reaction" ∈ tokens ∧ "salt-reaction" ≠ t ∧
          "garlic-aversion" ∈ tokens ∧ "garlic-aversion" ≠ t) ∨
         ("extended-tongue" ∈ tokens ∧ "extended-tongue" ≠ t ∧
          "leathery-wings" ∈ tokens ∧ "leathery-wings" ≠ t)))) := by
  constructor
  · simp [validateCombination, validCombinations]
  · intro ht
    have h1 : handleTokenClick tokens t =
        tokens.filter (fun id => id ≠ t) := by
      simp [handleTokenClick, ht]
    rw [h1]
    simp [validateCombination, validCombinations, List.mem_filter]
    tauto

/-- Witness for C5: with exactly the pair `reversed-reflection, no-shadow`
collected, the creature is revealed, and removing `no-shadow` reverts the
predicate to false. -/
theorem c5_is_revealed_witness :
    validateCombination ["reversed-reflection", "no-shadow"] = true ∧
    validateCombination
      (handleTokenClick ["reversed-reflection", "no-shadow"] "no-shadow") =
      false := by
  constructor
  · exact (c5_is_revealed ["reversed-reflection", "no-shadow"]
      "no-shadow").1.mpr (Or.inl (by decide))
  · have h := ((c5_is_revealed ["reversed-reflection", "no-shadow"]
      "no-shadow").2 (by decide))
    rcases hb : validateCombination
        (handleTokenClick ["reversed-reflection", "no-shadow"] "no-shadow") with
      _ | _
    · rfl
    · have hc := h.mp hb
      revert hc
      decide

/-- Counterexample for C6 as stated: (a) on a second mismatch (hint already
shown) `hintsRevealed` is not incremented again — from a fresh state two
misses leave it at 1, not 2; (b) the answer key is not trimmed: with the
key `" map"` the input `"map"` is judged incorrect although both sides
trim-and-lower-case to `"map"`. -/
theorem c6_counterexample :
    (handleSubmitAnswer "map" "wrong" false (some 0) =
      ("Incorrect. The witch frowns.", true, some 1)) ∧
    (handleSubmitAnswer "map" "wrong" true (some 1) =
      ("Incorrect. The witch frowns.", true, some 1)) ∧
    (handleSubmitAnswer "map" "wrong" true (some 1)).2.2 ≠ some 2 ∧
    (handleSubmitAnswer " map" "map" false (some 0)).1 =
      "Incorrect. The witch frowns." ∧
    jsToLowerCase (jsTrim "map") = jsToLowerCase (jsTrim " map") := by
  refine ⟨by decide, by decide, by decide, by decide, by decide⟩

/-- C6 amended: answer submission trims and lower-cases the input and
compares it against the lower-cased (but not trimmed) answer key.  On a
mismatch while no hint is shown it reveals the hint and increments
`hintsRevealed` by exactly 1; on a mismatch while the hint is already
shown it reports incorrect and changes no state; on a match it reports
correct and changes no state. -/
theorem c6_riddle_submission (answerKey input : String) (showHint : Bool)
    (hintsRevealed : Option Int) :
    (jsToLowerCase (jsTrim input) = jsToLowerCase answerKey →
      handleSubmitAnswer answerKey input showHint hintsRevealed =
        ("Correct! The witch is pleased.", showHint, hintsRevealed)) ∧
    (jsToLowerCase (jsTrim input) ≠ jsToLowerCase answerKey →
      showHint = false →
      handleSubmitAnswer answerKey input showHint hintsRevealed =
        ("Incorrect. The witch frowns.", true,
          some (jsOrInt hintsRevealed 0 + 1))) ∧
    (jsToLowerCase (jsTrim input) ≠ jsToLowerCase answerKey →
      showHint = true →
      handleSubmitAnswer answerKey input showHint hintsRevealed =
        ("Incorrect. The witch frowns.", showHint, hintsRevealed)) := by
  refine ⟨?_, ?_, ?_⟩
  · intro heq
    simp [handleSubmitAnswer, heq]
  · intro hne hsh
    subst hsh
    simp [handleSubmitAnswer, hne]
  · intro hne hsh
    subst hsh
    simp [handleSubmitAnswer, hne]

/-- Witness for C6 (amended): a correct submission (`" Human"` against key
`"human"`), a first miss incrementing the hint counter, and a second miss
leaving it unchanged. -/
theorem c6_riddle_submission_witness :
    handleSubmitAnswer "human" " Human" false (some 0) =
      ("Correct! The witch is pleased.", false, some 0) ∧
    handleSubmitAnswer "human" "witch" false (some 0) =
      ("Incorrect. The witch frowns.", true, some 1) ∧
    handleSubmitAnswer "human" "witch" true (some 1) =
      ("Incorrect. The witch frowns.", true, some 1) := by
  refine ⟨?_, ?_, ?_⟩
  · exact (c6_riddle_submission "human" " Human" false (some 0)).1 (by decide)
  · have h := (c6_riddle_submission "human" "witch" false (some 0)).2.1
      (by decide) rfl
    simpa [jsOrInt] using h
  · exact (c6_riddle_submission "human" "witch" true (some 1)).2.2
      (by decide) rfl

/-- A correct sample choice (witness data). -/
def sampleRight : GChoice := ⟨"do the right thing", true, "it went well"⟩

/-- An incorrect sample choice (witness data). -/
def sampleWrong : GChoice := ⟨"do the wrong thing", false, "it went badly"⟩

/-- A sample level offering one correct and one incorrect choice. -/
def sampleLevel : GLevel := ⟨"a scene", [sampleRight, sampleWrong]⟩

/-- A sample calmness creature with three levels. -/
def sampleCalmCreature : GCreature :=
  ⟨"banshee", "Banshee", "calmness", [sampleLevel, sampleLevel, sampleLevel]⟩

/-- A session state at level 0 of `sampleCalmCreature`, as produced by
selecting it and playing the reveal/story phases through to `level`. -/
def sampleLevelState : EngineState :=
  { initialEngineState with
    gameState := "level"
    selectedCreature := some sampleCalmCreature
    mechanicState := ⟨none, some (.num 100), none⟩ }

/-- C1: for every creature and every complete run of 3 submitted choices
(one per level, with the level transition completed in between), the run
ends in phase `end`, and the terminal outcome is `victory` iff at least 2
of the 3 chosen choices are correct and `defeat` otherwise — a function of
the correct-count only, independent of order or of which indices were
picked. -/
theorem c1_outcome_determinism
    (c : GCreature) (l0 l1 l2 : GLevel) (ch0 ch1 ch2 : GChoice)
    (i0 i1 i2 : Nat) (s : EngineState)
    (hsel : s.selectedCreature = some c)
    (hphase : s.gameState = "level")
    (hlev : s.currentLevel = 0)
    (hcount : s.correctAnswers = 0)
    (hlevels : c.levels = [l0, l1, l2])
    (h0 : l0.choices[i0]? = some ch0)
    (h1 : l1.choices[i1]? = some ch1)
    (h2 : l2.choices[i2]? = some ch2) :
    (runThreeChoices i0 i1 i2 s).gameState = "end" ∧
    ((runThreeChoices i0 i1 i2 s).outcome = some "victory" ↔
      2 ≤ (if ch0.isCorrect then 1 else 0) + (if ch1.isCorrect then 1 else 0) +
        (if ch2.isCorrect then 1 else 0)) ∧
    ((runThreeChoices i0 i1 i2 s).outcome = some "defeat" ↔
      (if ch0.isCorrect then 1 else 0) + (if ch1.isCorrect then 1 else 0) +
        (if ch2.isCorrect then 1 else 0) < 2) := by
  by_cases hm : c.coreMechanic = "calmness" <;>
    cases hc0 : ch0.isCorrect <;> cases hc1 : ch1.isCorrect <;>
    cases hc2 : ch2.isCorrect <;>
    simp [runThreeChoices, makeChoice, completeLevelTransition, hsel, hphase,
      hlev, hcount, hlevels, h0, h1, h2, hc0, hc1, hc2, hm]

/-- Witness for C1: on a three-level calmness creature, the run
correct-incorrect-correct (2 of 3 correct) ends in `victory`. -/
theorem c1_outcome_determinism_witness :
    (runThreeChoices 0 1 0 sampleLevelState).gameState = "end" ∧
    (runThreeChoices 0 1 0 sampleLevelState).outcome = some "victory" := by
  have h := c1_outcome_determinism sampleCalmCreature sampleLevel sampleLevel
    sampleLevel sampleRight sampleWrong sampleRight 0 1 0 sampleLevelState
    rfl rfl rfl rfl rfl rfl rfl rfl
  exact ⟨h.1, h.2.1.mpr (by decide)⟩

/-- C3: on a calmness creature, a complete run starting from a calmness
value `v ∈ [0,100]` ends with calmness
`max 0 (v − 25·[incorrect@0] − 30·[incorrect@1] − 35·[incorrect@2])`,
which always lies in `[0,100]`; moreover a correct choice at any level
leaves the whole mechanic state unchanged. -/
theorem c3_calmness_clamping
    (c : GCreature) (l0 l1 l2 : GLevel) (ch0 ch1 ch2 : GChoice)
    (i0 i1 i2 : Nat) (s : EngineState) (v : Int)
    (hsel : s.selectedCreature = some c)
    (hphase : s.gameState = "level")
    (hlev : s.currentLevel = 0)
    (hmech : c.coreMechanic = "calmness")
    (hcalm : s.mechanicState.calmnessLevel = some (.num v))
    (hv0 : 0 ≤ v) (hv100 : v ≤ 100)
    (hlevels : c.levels = [l0, l1, l2])
    (h0 : l0.choices[i0]? = some ch0)
    (h1 : l1.choices[i1]? = some ch1)
    (h2 : l2.choices[i2]? = some ch2) :
    ((runThreeChoices i0 i1 i2 s).mechanicState.calmnessLevel =
      some (.num (max 0 (v - (if ch0.isCorrect then 0 else 25) -
        (if ch1.isCorrect then 0 else 30) -
        (if ch2.isCorrect then 0 else 35)))) ∧
     0 ≤ max 0 (v - (if ch0.isCorrect then 0 else 25) -
        (if ch1.isCorrect then 0 else 30) -
        (if ch2.isCorrect then 0 else 35)) ∧
     max 0 (v - (if ch0.isCorrect then 0 else 25) -
        (if ch1.isCorrect then 0 else 30) -
        (if ch2.isCorrect then 0 else 35)) ≤ 100) ∧
    (∀ (j : Nat) (s' : EngineState) (c' : GCreature) (l' : GLevel)
      (ch' : GChoice),
      s'.selectedCreature = some c' → s'.gameState = "level" →
      c'.levels[s'.currentLevel]? = some l' → l'.choices[j]? = some ch' →
      ch'.isCorrect = true →
      (makeChoice j s').mechanicState = s'.mechanicState) := by
  constructor
  · cases hc0 : ch0.isCorrect <;> cases hc1 : ch1.isCorrect <;>
      cases hc2 : ch2.isCorrect <;>
      refine ⟨?_, ?_, ?_⟩ <;>
      simp [runThreeChoices, makeChoice, completeLevelTransition, hsel,
        hphase, hlev, hmech, hcalm, hlevels, h0, h1, h2, hc0, hc1, hc2,
        calmSub, calmnessDecrease, Int.max_def] <;>
      split_ifs <;> omega
  · intro j s' c' l' ch' hsel' hphase' hl' hch' hcorr
    simp only [makeChoice, hsel', hphase', hl', hch', hcorr,
      Bool.true_eq_false, and_false, if_false, if_true, ne_eq,
      not_true_eq_false, reduceCtorEq, imp_false, not_false_eq_true]
    split <;> rfl

/-- Witness for C3: starting from calmness 100, incorrect at levels 0 and 1
and correct at level 2 ends with calmness `max 0 (100 − 25 − 30) = 45`. -/
theorem c3_calmness_clamping_witness :
    (runThreeChoices 1 1 0 sampleLevelState).mechanicState.calmnessLevel =
      some (.num 45) := by
  have h := c3_calmness_clamping sampleCalmCreature sampleLevel sampleLevel
    sampleLevel sampleWrong sampleWrong sampleRight 1 1 0 sampleLevelState
    100 rfl rfl rfl rfl rfl (by decide) (by decide) rfl rfl rfl rfl
  have h1 := h.1.1
  simpa [sampleWrong, sampleRight] using h1

/-- A sample riddle creature (witness data). -/
def sampleRiddleCreature : GCreature :=
  ⟨"baba-yaga", "Baba Yaga", "riddle", [sampleLevel, sampleLevel, sampleLevel]⟩

/-- A sample dataset containing the riddle creature. -/
def sampleData : GCreatureData := ⟨[sampleRiddleCreature]⟩

/-- A session state in phase `end` after a finished run of the riddle
creature. -/
def sampleEndState : EngineState :=
  { initialEngineState with
    gameState := "end"
    selectedCreature := some sampleRiddleCreature
    currentLevel := 2
    outcome := some "defeat"
    correctAnswers := 1
    mechanicState := ⟨some 2, none, none⟩ }

/-- The engine read `mechanicState.calmnessLevel ?? 100`. -/
def readCalmness (m : MechanicState) : JsIntVal :=
  match m.calmnessLevel with
  | some v => v
  | none => .num 100

/-- The engine read `mechanicState.tokensCollected || []` (arrays are
always truthy, so a present array is returned unchanged). -/
def readTokens (m : MechanicState) : List String :=
  match m.tokensCollected with
  | some l => l
  | none => []

/-- Counterexample for C9 as stated: after a finished run of the riddle
creature, `restartGame` does not produce the same session state as
`selectCreature` of the same id — `restartGame` stores the combined
three-field default mechanic record (`calmnessLevel` present, 100) while
`selectCreature` stores the single-field riddle record (`calmnessLevel`
absent). -/
theorem c9_counterexample :
    restartGame sampleEndState ≠
      selectCreature (some sampleData) "baba-yaga" sampleEndState ∧
    (restartGame sampleEndState).mechanicState.calmnessLevel =
      some (.num 100) ∧
    (selectCreature (some sampleData) "baba-yaga"
        sampleEndState).mechanicState.calmnessLevel = none := by
  refine ⟨by decide, rfl, rfl⟩

/-- C9 amended: `restartGame` after `end` moves the phase to
`characterReveal` and performs the same reset as `selectCreature(sameId)`
on every session field — level index 0, correct count 0, consequence text
empty, outcome cleared, story index 0, animation flags cleared — while
preserving the selected creature; the mechanic states agree under the
engine's defaulted reads (`hintsRevealed || 0`, `calmnessLevel ?? 100`,
`tokensCollected || []`) for each of the three real mechanics, though the
stored records differ in shape (`restartGame` stores the combined
three-field default, `selectCreature` a single-field record).  `goHome`
performs exactly the `restartGame` reset with the creature cleared and the
phase set to `select`. -/
theorem c9_restart_isolation
    (data : GCreatureData) (creatureId : String) (c : GCreature)
    (s : EngineState)
    (hsel : s.selectedCreature = some c)
    (hfind : data.creatures.find? (fun x => x.id = creatureId) = some c) :
    ((restartGame s).gameState = "characterReveal" ∧
     (selectCreature (some data) creatureId s).gameState =
       "characterReveal" ∧
     (restartGame s).selectedCreature =
       (selectCreature (some data) creatureId s).selectedCreature ∧
     (restartGame s).selectedCreature = some c ∧
     (restartGame s).currentLevel =
       (selectCreature (some data) creatureId s).currentLevel ∧
     (restartGame s).currentLevel = 0 ∧
     (restartGame s).outcome =
       (selectCreature (some data) creatureId s).outcome ∧
     (restartGame s).outcome = none ∧
     (restartGame s).consequenceText =
       (selectCreature (some data) creatureId s).consequenceText ∧
     (restartGame s).consequenceText = "" ∧
     (restartGame s).correctAnswers =
       (selectCreature (some data) creatureId s).correctAnswers ∧
     (restartGame s).correctAnswers = 0 ∧
     (restartGame s).storyBubbleIndex =
       (selectCreature (some data) creatureId s).storyBubbleIndex ∧
     (restartGame s).animationState =
       (selectCreature (some data) creatureId s).animationState ∧
     (restartGame s).transitionFrom =
       (selectCreature (some data) creatureId s).transitionFrom) ∧
    ((c.coreMechanic = "riddle" ∨ c.coreMechanic = "calmness" ∨
      c.coreMechanic = "deduction") →
      (jsOrInt (restartGame s).mechanicState.hintsRevealed 0 =
         jsOrInt (selectCreature (some data) creatureId
           s).mechanicState.hintsRevealed 0 ∧
       readCalmness (restartGame s).mechanicState =
         readCalmness (selectCreature (some data) creatureId
           s).mechanicState ∧
       readTokens (restartGame s).mechanicState =
         readTokens (selectCreature (some data) creatureId
           s).mechanicState)) ∧
    goHome s =
      { restartGame s with
          selectedCreature := none
          gameState := "select" } := by
  refine ⟨?_, ?_, ?_⟩
  · simp [restartGame, selectCreature, hfind, hsel]
  · rintro (hm | hm | hm) <;>
      simp [restartGame, selectCreature, selectMechanicReset, hfind, hm,
        readCalmness, readTokens, jsOrInt]
  · rfl

/-- Witness for C9 (amended): instantiated at the sample end state of the
riddle creature. -/
theorem c9_restart_isolation_witness :
    sampleEndState.selectedCreature = some sampleRiddleCreature ∧
    (restartGame sampleEndState).gameState =
      (selectCreature (some sampleData) "baba-yaga"
        sampleEndState).gameState ∧
    readCalmness (restartGame sampleEndState).mechanicState =
      readCalmness (selectCreature (some sampleData) "baba-yaga"
        sampleEndState).mechanicState := by
  have h := c9_restart_isolation sampleData "baba-yaga"
    sampleRiddleCreature sampleEndState rfl (by decide)
  have hm := h.2.1 (Or.inl rfl)
  exact ⟨rfl, h.1.1.trans h.1.2.1.symm, hm.2.1⟩

/-- The structural-validity predicate of the fallback-totality property,
transcribed from the specification: the repository has a `creatures` array
in which every creature has a truthy `id` and `name`, exactly 3 levels, and
every level exactly 2 choices. -/
def repoStructurallyValid (v : JValue) : Bool :=
  match jget v "creatures" with
  | some (.arr creatures) =>
    creatures.all (fun creature =>
      truthyOpt (jget creature "id") &&
      truthyOpt (jget creature "name") &&
      (match jget creature "levels" with
       | some (.arr levels) =>
         decide (levels.length = 3) &&
         levels.all (fun level =>
           match jget level "choices" with
           | some (.arr choices) => decide (choices.length = 2)
           | _ => false)
       | _ => false))
  | _ => false

/-- The guarantee the pipeline actually provides on a successfully
validated fetch: a `creatures` array in which every creature has a truthy
`id` and `name` and a non-empty `levels` array. -/
def repoWeaklyValid (v : JValue) : Bool :=
  match jget v "creatures" with
  | some (.arr creatures) =>
    creatures.all (fun creature =>
      truthyOpt (jget creature "id") &&
      truthyOpt (jget creature "name") &&
      (match jget creature "levels" with
       | some (.arr levels) => decide (0 < levels.length)
       | _ => false))
  | _ => false

/-- A well-formed but short payload: one creature with a single level that
offers no choices.  It passes `validateCreatureData` (which only demands a
non-empty `levels` array). -/
def malformedCreaturePayload : JValue :=
  .obj [("creatures", .arr [.obj [
    ("id", .str "stub"),
    ("name", .str "Stub"),
    ("levels", .arr [.obj []])]])]

/-- `jsOrV` with a truthy default is truthy. -/
theorem truthy_jsOrV (a : Option JValue) (d : JValue)
    (hd : truthy d = true) : truthy (jsOrV a d) = true := by
  unfold jsOrV
  cases a with
  | none => exact hd
  | some v =>
    by_cases hv : truthy v
    · simp [hv]
    · simp [hv, hd]

/-- `jsArrayMap` preserves the length. -/
theorem jsArrayMap_length (f : JValue → Option JValue) :
    ∀ (l l' : List JValue), jsArrayMap f l = some l' →
      l'.length = l.length := by
  intro l
  induction l with
  | nil =>
    intro l' h
    simp [jsArrayMap] at h
    subst h
    rfl
  | cons x xs ih =>
    intro l' h
    unfold jsArrayMap at h
    cases hfx : f x with
    | none => rw [hfx] at h; simp at h
    | some y =>
      rw [hfx] at h
      cases hxs : jsArrayMap f xs with
      | none => rw [hxs] at h; simp at h
      | some ys =>
        rw [hxs] at h
        simp at h
        subst h
        simp [ih ys hxs]

/-- Every element of a `jsArrayMap` image comes from an element of the
source list. -/
theorem jsArrayMap_mem (f : JValue → Option JValue) :
    ∀ (l l' : List JValue), jsArrayMap f l = some l' →
      ∀ y ∈ l', ∃ x ∈ l, f x = some y := by
  intro l
  induction l with
  | nil =>
    intro l' h y hy
    simp [jsArrayMap] at h
    subst h
    simp at hy
  | cons x xs ih =>
    intro l' h y hy
    unfold jsArrayMap at h
    cases hfx : f x with
    | none => rw [hfx] at h; simp at h
    | some z =>
      rw [hfx] at h
      cases hxs : jsArrayMap f xs with
      | none => rw [hxs] at h; simp at h
      | some ys =>
        rw [hxs] at h
        simp at h
        subst h
        rcases List.mem_cons.1 hy with rfl | hy
        · exact ⟨x, List.mem_cons_self x xs, hfx⟩
        · obtain ⟨w, hw, hfw⟩ := ih ys hxs y hy
          exact ⟨w, List.mem_cons_of_mem x hw, hfw⟩

/-- A validated payload that the defaulting pass maps without throwing is
weakly valid: every creature of the result has a truthy id and name and a
non-empty `levels` array. -/
theorem applySafeDefaults_weaklyValid (d r : JValue)
    (hval : validateCreatureData d = true)
    (happ : applySafeDefaultsToCreatureData d = some r) :
    repoWeaklyValid r = true := by
  unfold validateCreatureData at hval
  by_cases h1 : truthy d = false
  · rw [if_pos h1] at hval
    simp at hval
  · rw [if_neg h1] at hval
    by_cases h2 : isObjectType d = false
    · rw [if_pos h2] at hval
      simp at hval
    · rw [if_neg h2] at hval
      cases hg : jget d "creatures" with
      | none => rw [hg] at hval; simp at hval
      | some v =>
        rw [hg] at hval
        cases v with
        | null => simp at hval
        | bool b => simp at hval
        | num q => simp at hval
        | str t => simp at hval
        | obj fs => simp at hval
        | arr creatures =>
          dsimp only at hval
          unfold applySafeDefaultsToCreatureData at happ
          rw [if_neg h1] at happ
          have htr : ¬ (truthyOpt (jget d "creatures") = false) := by
            rw [hg]
            simp [truthyOpt, truthy]
          rw [if_neg htr, hg] at happ
          dsimp only at happ
          cases hmap : jsArrayMap applyCreatureDefaults creatures with
          | none => rw [hmap] at happ; simp at happ
          | some cs =>
            rw [hmap] at happ
            simp at happ
            subst happ
            unfold repoWeaklyValid
            rw [show jget (JValue.obj [("creatures", JValue.arr cs)])
              "creatures" = some (JValue.arr cs) from rfl]
            rw [List.all_eq_true]
            intro y hy
            obtain ⟨x, hx, hfx⟩ := jsArrayMap_mem _ _ _ hmap y hy
            have hPx := List.all_eq_true.1 hval x hx
            simp only [Bool.and_eq_true] at hPx
            obtain ⟨⟨hid, hname⟩, hlev⟩ := hPx
            cases hlx : jget x "levels" with
            | none => rw [hlx] at hlev; simp at hlev
            | some w =>
              rw [hlx] at hlev
              cases w with
              | null => simp at hlev
              | bool b => simp at hlev
              | num q => simp at hlev
              | str t => simp at hlev
              | obj fs => simp at hlev
              | arr levels =>
                have hlen : 0 < levels.length := by
                  simpa using hlev
                unfold applyCreatureDefaults at hfx
                have hmap2 : jsArrayOrEmptyMap (jget x "levels")
                    applyLevelDefaults =
                    jsArrayMap applyLevelDefaults levels := by
                  rw [hlx]
                  simp [jsArrayOrEmptyMap, truthy]
                rw [hmap2] at hfx
                cases hlm : jsArrayMap applyLevelDefaults levels with
                | none => rw [hlm] at hfx; simp at hfx
                | some levels2 =>
                  rw [hlm] at hfx
                  simp at hfx
                  subst hfx
                  simp only [Bool.and_eq_true]
                  refine ⟨⟨?_, ?_⟩, ?_⟩
                  · exact truthy_jsOrV _ _ rfl
                  · exact truthy_jsOrV _ _ rfl
                  · have hlen2 : levels2.length = levels.length :=
                      jsArrayMap_length _ _ _ hlm
                    simp [jget, List.lookup, hlen2, hlen]

/-- Counterexample for C2 as stated: a fetched payload with one creature
holding a single choice-less level passes validation, so the loaded
repository has a creature with 1 level (not 3) and 0 choices — the
"exactly 3 levels, exactly 2 choices" shape is not guaranteed on the
successful-fetch path. -/
theorem c2_counterexample :
    validateCreatureData malformedCreaturePayload = true ∧
    repoStructurallyValid
      (loadCreatureData (.body malformedCreaturePayload)) = false ∧
    (loadAllGameData (.body malformedCreaturePayload) .transportError).1 =
      loadCreatureData (.body malformedCreaturePayload) := by
  refine ⟨by decide, by decide, rfl⟩

/-- C2 amended: on every failing fetch combination (transport error, HTTP
error, parse error, or validation failure) the creature dataset is the
complete embedded fallback, which is structurally valid (every creature
has a truthy id and name, exactly 3 levels, each with exactly 2 choices);
on a successfully validated fetch the result is never partial or null —
every creature has a truthy id and name and at least one level — but the
exact 3-level/2-choice shape is only guaranteed for the fallback. -/
theorem c2_fallback_totality (o : FetchOutcome) (d : JValue) :
    (o = .transportError ∨ o = .httpError ∨ o = .parseError →
      loadCreatureData o = fallbackCreatureData) ∧
    (validateCreatureData d = false →
      loadCreatureData (.body d) = fallbackCreatureData) ∧
    repoStructurallyValid fallbackCreatureData = true ∧
    repoWeaklyValid (loadCreatureData o) = true := by
  refine ⟨?_, ?_, by decide, ?_⟩
  · rintro (rfl | rfl | rfl) <;> rfl
  · intro hval
    simp [loadCreatureData, hval]
  · cases o with
    | transportError => decide
    | httpError => decide
    | parseError => decide
    | body d0 =>
      show repoWeaklyValid (loadCreatureData (.body d0)) = true
      have hload : loadCreatureData (.body d0) =
          (if validateCreatureData d0 = true then
            match applySafeDefaultsToCreatureData d0 with
            | some result => result
            | none => fallbackCreatureData
          else fallbackCreatureData) := rfl
      rw [hload]
      by_cases hval : validateCreatureData d0 = true
      · rw [if_pos hval]
        cases happ : applySafeDefaultsToCreatureData d0 with
        | none => decide
        | some r => exact applySafeDefaults_weaklyValid d0 r hval happ
      · rw [if_neg hval]
        decide

/-- Witness for C2 (amended): a transport error yields the structurally
valid fallback, and the malformed-but-validated payload yields a weakly
valid repository. -/
theorem c2_fallback_totality_witness :
    loadCreatureData .transportError = fallbackCreatureData ∧
    repoStructurallyValid fallbackCreatureData = true ∧
    repoWeaklyValid
      (loadCreatureData (.body malformedCreaturePayload)) = true := by
  have h1 := c2_fallback_totality .transportError .null
  have h2 := c2_fallback_totality (.body malformedCreaturePayload) .null
  exact ⟨h1.1 (Or.inl rfl), h1.2.2.1, h2.2.2.2⟩

/-- C8: the content-loading pipeline is total — it is a function of the two
fetch outcomes that always returns a pair of datasets (never raises, by
construction of the embedding) — each failing dataset independently falls
back to its complete embedded default, and each component of the result
depends only on its own fetch outcome. -/
theorem c8_loading_independence (o1 o2 o2' o1' : FetchOutcome)
    (d e : JValue) :
    loadAllGameData o1 o2 = (loadCreatureData o1, loadUIConfig o2) ∧
    (loadAllGameData o1 o2).1 = (loadAllGameData o1 o2').1 ∧
    (loadAllGameData o1 o2).2 = (loadAllGameData o1' o2).2 ∧
    (o1 = .transportError ∨ o1 = .httpError ∨ o1 = .parseError →
      loadCreatureData o1 = fallbackCreatureData) ∧
    (validateCreatureData d = false →
      loadCreatureData (.body d) = fallbackCreatureData) ∧
    (o2 = .transportError ∨ o2 = .httpError ∨ o2 = .parseError →
      loadUIConfig o2 = fallbackUIConfig) ∧
    (validateUIConfig e = false →
      loadUIConfig (.body e) = fallbackUIConfig) := by
  refine ⟨rfl, rfl, rfl, ?_, ?_, ?_, ?_⟩
  · rintro (rfl | rfl | rfl) <;> rfl
  · intro hval
    simp [loadCreatureData, hval]
  · rintro (rfl | rfl | rfl) <;> rfl
  · intro hval
    simp [loadUIConfig, hval]

/-- Witness for C8: a failing creature fetch paired with a malformed UI
payload falls back on both sides, independently of each other. -/
theorem c8_loading_independence_witness :
    loadAllGameData .transportError (.body (.str "oops")) =
      (fallbackCreatureData, fallbackUIConfig) ∧
    validateUIConfig (.str "oops") = false := by
  have h := c8_loading_independence .transportError (.body (.str "oops"))
    .parseError .httpError .null (.str "oops")
  have hcr := h.2.2.2.1 (Or.inl rfl)
  have hui := h.2.2.2.2.2.2 (by decide)
  refine ⟨?_, by decide⟩
  rw [h.1, hcr, hui]

end Folklore
